import Mathlib

/-!
Shallow embedding of `geoloc_util.py`, a command-line utility that converts
user-supplied location strings (US zip codes or "city, state" pairs) into
geocoding lookups against an HTTP geolocation API.

Modelling decisions:
* Python strings are Lean `String`s; `str.strip()`, `str.upper()`, `str.split`
  are modelled by `pyStrip`, `String.toUpper`, `String.splitOn` (ASCII-faithful;
  the claims only involve ASCII data).
* `re.match(r'\d{5}', location)` succeeds exactly when the first five
  characters of `location` are digits; `matchFiveDigits` captures that.
* JSON values parsed by `json.loads` are modelled by the inductive `JVal`.
* The HTTP transport (`requests.get`) is an oracle
  `web : String → List (String × String) → WebResponse` mapping the full URL
  and query parameters to a response.  `FakeWebResponse` is the constructor
  `WebResponse.fake` (status code 999, no `text` attribute).
* A Python run-time exception (attribute error on `FakeWebResponse.text`,
  `TypeError`/`KeyError`/`IndexError` on dictionary/list operations) is
  modelled by `Option`: `none` means the call raised.
* `set(args.locations)` iterates in an unspecified order; we model it by
  `dedupList`, which keeps the first occurrence of each string.  Only the
  cardinality and the underlying set of the result are specified behaviour.
* `argparse` handling is out of scope: `main` receives the already-parsed
  list of `--locations` values.
-/

namespace GeolocUtil

/-- `APPID` constant from the source. -/
def APPID : String := "f897a99d971b5eef57be6fafa0d83239"

/-- `OPENWEATHERMAP_BASE_URL` constant from the source. -/
def OPENWEATHERMAP_BASE_URL : String := "http://api.openweathermap.org/geo/1.0"

/-- `STATES` constant from the source: the 51 two-letter US state and D.C. codes. -/
def STATES : List String :=
  ["AL", "AK", "AZ", "AR", "CA", "CO", "CT", "DC", "DE", "FL",
   "GA", "HI", "ID", "IL", "IN", "IA", "KS", "KY", "LA", "ME",
   "MD", "MA", "MI", "MN", "MS", "MO", "MT", "NE", "NV", "NH",
   "NJ", "NM", "NY", "NC", "ND", "OH", "OK", "OR", "PA", "RI",
   "SC", "SD", "TN", "TX", "UT", "VT", "VA", "WA", "WV", "WI", "WY"]

/-- `US_COUNTRY_CODE` constant from the source. -/
def US_COUNTRY_CODE : String := "US"

namespace SearchType

/-- `SearchType.NAME_STATE` string constant from the source. -/
def NAME_STATE : String := "Name,State"

/-- `SearchType.ZIP_CODE` string constant from the source. -/
def ZIP_CODE : String := "Zip code"

end SearchType

/-- The `Search` class from the source: a single search request. -/
structure Search where
  search_type : String
  value : String
deriving DecidableEq

/-- `Search.__repr__` from the source: `f"{self.search_type} {self.value}"`. -/
def Search.reprStr (s : Search) : String := s.search_type ++ " " ++ s.value

/-- Python `str.strip()` on a list of characters: drop whitespace from both ends. -/
def stripChars (cs : List Char) : List Char :=
  ((cs.dropWhile Char.isWhitespace).reverse.dropWhile Char.isWhitespace).reverse

/-- Python `str.strip()`. -/
def pyStrip (s : String) : String := ⟨stripChars s.data⟩

/-- Python `str.upper()` (ASCII case mapping suffices for the data involved). -/
def pyUpper (s : String) : String := ⟨s.data.map Char.toUpper⟩

/-- Helper for `pySplitComma`: `acc` holds the current token reversed. -/
def splitCommaAux : List Char → List Char → List String
  | [], acc => [⟨acc.reverse⟩]
  | c :: cs, acc =>
    if c == ',' then ⟨acc.reverse⟩ :: splitCommaAux cs []
    else splitCommaAux cs (c :: acc)

/-- Python `location.split(',')`: split on every comma, keeping empty tokens. -/
def pySplitComma (s : String) : List String := splitCommaAux s.data []

/-- `re.match(r'\d{5}', location)` is truthy exactly when the string starts
with five digit characters. -/
def matchFiveDigits (location : String) : Bool :=
  let cs := location.data.take 5
  cs.length == 5 && cs.all Char.isDigit

/-- The `local_errors` accumulated for a candidate name/state location
(lines 68-73 of the source): the city-empty error, then the invalid-state
error. -/
def localErrors (location city_candidate state_candidate : String) : List String :=
  (if city_candidate == "" then
    ["Location " ++ location ++ "\x27s city is an empty string"] else []) ++
  (if !(STATES.contains state_candidate) then
    ["Location " ++ location ++ "\x27s state " ++ state_candidate ++
      " not a valid US state"] else [])

/-- The body of the `for location in locations` loop of `locations_to_searches`:
classify one raw location string into the searches and errors it contributes. -/
def classifyOne (location : String) : List Search × List String :=
  if matchFiveDigits location then
    ([⟨SearchType.ZIP_CODE, location⟩], [])
  else
    match pySplitComma location with
    | [t0, t1] =>
      let city_candidate := pyStrip t0
      let state_candidate := pyUpper (pyStrip t1)
      let local_errors := localErrors location city_candidate state_candidate
      if !local_errors.isEmpty then
        ([], local_errors)
      else
        ([⟨SearchType.NAME_STATE, city_candidate ++ "," ++ state_candidate⟩], [])
    | _ => ([], ["Location " ++ location ++ " does not contain one-and-only-one comma"])

/-- `locations_to_searches` from the source: the loop accumulates, left to
right, the searches and errors contributed by each location. -/
def locations_to_searches : List String → List Search × List String
  | [] => ([], [])
  | location :: rest =>
    let here := classifyOne location
    let there := locations_to_searches rest
    (here.1 ++ there.1, here.2 ++ there.2)

/-- JSON values, as produced by `json.loads` (numbers keep their literal text;
their numeric value is never inspected by the program). -/
inductive JVal where
  | null
  | bool (b : Bool)
  | str (s : String)
  | num (lit : String)
  | arr (elems : List JVal)
  | obj (fields : List (String × JVal))

/-- A web response: either `FakeWebResponse` (status code 999, *no* `text`
attribute) or a real `requests.get` response whose `text` parsed to `body`. -/
inductive WebResponse where
  | fake
  | real (status_code : Nat) (body : JVal)

/-- `response.status_code`: 999 for `FakeWebResponse`, as set in its `__init__`. -/
def WebResponse.status_code : WebResponse → Nat
  | .fake => 999
  | .real c _ => c

/-- `json.loads(response.text)`: `FakeWebResponse` defines no `text` attribute,
so accessing it raises `AttributeError` (modelled as `none`). -/
def WebResponse.parsedText : WebResponse → Option JVal
  | .fake => none
  | .real _ b => some b

/-- Python `len(x)`: defined for strings, lists and dictionaries; raises
`TypeError` (`none`) otherwise. -/
def pyLen : JVal → Option Nat
  | .str s => some s.length
  | .arr xs => some xs.length
  | .obj fs => some fs.length
  | _ => none

/-- Python `x[0]`: first element of a list, first character of a string
(as a one-character string); raises (`none`) on an empty list or string, on a
dictionary (JSON keys are strings, so key `0` is absent) and on other types. -/
def pyIndexZero : JVal → Option JVal
  | .arr (x :: _) => some x
  | .str s =>
    match s.data with
    | c :: _ => some (.str ⟨[c]⟩)
    | [] => none
  | _ => none

/-- Is `needle` a contiguous sublist of `hay`? (Python substring test.) -/
def listInfix (needle hay : List Char) : Bool :=
  needle.isPrefixOf hay ||
    match hay with
    | [] => false
    | _ :: t => listInfix needle t

/-- Python `k in x`: key membership for a dictionary, element membership for a
list (only string elements can equal the string `k`), substring test for a
string; raises `TypeError` (`none`) for non-container types. -/
def pyContains (k : String) : JVal → Option Bool
  | .obj fs => some (fs.any (fun p => p.1 == k))
  | .arr xs =>
    some (xs.any (fun v => match v with | .str s => s == k | _ => false))
  | .str s => some (listInfix k.data s.data)
  | _ => none

/-- Python `del x[k]` for a string key: removes the key from a dictionary;
raises `TypeError` (`none`) on any other type. -/
def pyDelKey (k : String) : JVal → Option JVal
  | .obj fs => some (.obj (fs.filter (fun p => p.1 != k)))
  | _ => none

/-- Lines 117-118 of the source, applied to the chosen record:
`if 'local_names' in first_response: del first_response['local_names']`. -/
def stripLocalNames (first_response : JVal) : Option JVal :=
  match pyContains "local_names" first_response with
  | none => none
  | some true => pyDelKey "local_names" first_response
  | some false => some first_response

/-- The `path` chosen for a search: `'direct'` for name/state, `'zip'` otherwise. -/
def searchPath (search : Search) : String :=
  if search.search_type == SearchType.NAME_STATE then "direct" else "zip"

/-- The query-parameter key chosen for a search: `'q'` or `'zip'`. -/
def searchQueryParam (search : Search) : String :=
  if search.search_type == SearchType.NAME_STATE then "q" else "zip"

/-- `full_url = f'{OPENWEATHERMAP_BASE_URL}/{path}'`. -/
def fullUrl (search : Search) : String :=
  OPENWEATHERMAP_BASE_URL ++ "/" ++ searchPath search

/-- The `params` list passed to `requests.get`. -/
def searchParams (search : Search) : List (String × String) :=
  [(searchQueryParam search, search.value ++ "," ++ US_COUNTRY_CODE),
   ("limit", "1"),
   ("appid", APPID)]

/-- The transport oracle abstracting `requests.get(full_url, params)`. -/
def Web : Type := String → List (String × String) → WebResponse

/-- Lines 107-122 of the source: interpret the web response obtained for one
search, yielding the successful and failed entries it contributes, or `none`
if the interpretation raised an exception. -/
def classifyResponse (search : Search) (response : WebResponse) :
    Option (List (Search × JVal) × List (Search × String)) :=
  if response.status_code == 200 then
    match response.parsedText with
    | none => none
    | some response_object =>
      if search.search_type == SearchType.NAME_STATE then
        match pyLen response_object with
        | none => none
        | some n =>
          if n != 0 then
            match pyIndexZero response_object with
            | none => none
            | some first_response =>
              match stripLocalNames first_response with
              | none => none
              | some fr => some ([(search, fr)], [])
          else
            some ([], [(search, "Webserver response had no matching responses")])
      else
        match stripLocalNames response_object with
        | none => none
        | some fr => some ([(search, fr)], [])
  else
    some ([], [(search, "Webserver returned error code: " ++
      toString response.status_code)])

/-- The body of the `for search in searches` loop of `perform_searches`:
obtain the response (the fake one when simulating, the oracle's otherwise)
and interpret it. -/
def performOne (web : Web) (simulate_web_failure : Bool) (search : Search) :
    Option (List (Search × JVal) × List (Search × String)) :=
  classifyResponse search
    (if simulate_web_failure then WebResponse.fake
     else web (fullUrl search) (searchParams search))

/-- `perform_searches` from the source: run every search left to right,
accumulating successes and failures; an exception in any iteration propagates
out of the whole call (`none`). -/
def perform_searches (web : Web) (searches : List Search)
    (simulate_web_failure : Bool) :
    Option (List (Search × JVal) × List (Search × String)) :=
  match searches with
  | [] => some ([], [])
  | search :: rest =>
    match performOne web simulate_web_failure search with
    | none => none
    | some here =>
      match perform_searches web rest simulate_web_failure with
      | none => none
      | some there => some (here.1 ++ there.1, here.2 ++ there.2)

mutual

/-- Python `repr` of a parsed JSON value, as interpolated into the report by
`f"Result: {successful_search[1]}"` (string escaping inside literals is not
modelled; the data involved contains no quotes). -/
def jrepr : JVal → String
  | .null => "None"
  | .bool true => "True"
  | .bool false => "False"
  | .str s => "\x27" ++ s ++ "\x27"
  | .num lit => lit
  | .arr xs => "[" ++ jreprElems xs ++ "]"
  | .obj fs => "\x7b" ++ jreprFields fs ++ "\x7d"

/-- Comma-separated `repr`s of list elements. -/
def jreprElems : List JVal → String
  | [] => ""
  | [x] => jrepr x
  | x :: y :: t => jrepr x ++ ", " ++ jreprElems (y :: t)

/-- Comma-separated `'key': repr(value)` entries of a dictionary. -/
def jreprFields : List (String × JVal) → String
  | [] => ""
  | [p] => "\x27" ++ p.1 ++ "\x27: " ++ jrepr p.2
  | p :: q :: t => "\x27" ++ p.1 ++ "\x27: " ++ jrepr p.2 ++ ", " ++ jreprFields (q :: t)

end

/-- Helper for `dedupList`: keep elements not seen before. -/
def dedupAux : List String → List String → List String
  | [], _ => []
  | x :: xs, seen =>
    if seen.contains x then dedupAux xs seen
    else x :: dedupAux xs (x :: seen)

/-- `set(args.locations)`, modelled as the list of distinct elements in order
of first occurrence (the Python set order is unspecified; only the underlying
set and its cardinality are specified behaviour). -/
def dedupList (locations : List String) : List String := dedupAux locations []

/-- Lines 154-157 of `main`: the duplicate-count line, present when
deduplication removed at least one location. -/
def dupLines (locations : List String) : List String :=
  let locations_delta := locations.length - (dedupList locations).length
  if locations_delta != 0 then
    ["Removed " ++ toString locations_delta ++ " duplicative location(s) from search"]
  else []

/-- Lines 168-171 of `main`: the lines reporting successful searches. -/
def successLines (successful_searches : List (Search × JVal)) : List String :=
  if !successful_searches.isEmpty then
    (toString successful_searches.length ++ " successful search(es):") ::
      successful_searches.map
        (fun s => "Search: " ++ Search.reprStr s.1 ++ "\nResult: " ++ jrepr s.2)
  else []

/-- Lines 172-175 of `main`: the lines reporting failed searches. -/
def failLines (failed_searches : List (Search × String)) : List String :=
  if !failed_searches.isEmpty then
    (toString failed_searches.length ++ " failed search(es):") ::
      failed_searches.map
        (fun f => "Search: " ++ Search.reprStr f.1 ++ "\nError: " ++ f.2)
  else []

/-- The body of `main` after argument parsing, producing the `output_lines`
list and the outcome code (before the final join-and-strip).  `none` models an
uncaught exception from `perform_searches`. -/
def mainLines (locations : List String) (web : Web) (simulate_web_failure : Bool) :
    Option (List String × Nat) :=
  let locations_set := dedupList locations
  let searches := (locations_to_searches locations_set).1
  let errors := (locations_to_searches locations_set).2
  if !errors.isEmpty then
    some (dupLines locations ++ errors, 1)
  else
    match perform_searches web searches simulate_web_failure with
    | none => none
    | some res =>
      some (dupLines locations ++ successLines res.1 ++ failLines res.2,
            if !res.2.isEmpty then 2 else 0)

/-- `main` from the source, with `argparse` elided: `locations` is the parsed
`--locations` list, and the transport oracle `web` stands for `requests.get`.
Returns the report text (`'\n'.join(output_lines).strip()`) and the outcome
code. -/
def main (locations : List String) (web : Web) (simulate_web_failure : Bool) :
    Option (String × Nat) :=
  (mainLines locations web simulate_web_failure).map
    (fun p => (pyStrip (String.intercalate "\n" p.1), p.2))

/-! ## Helper lemmas -/

/-- `locations_to_searches` on a one-element list is the classification of
that element. -/
theorem locations_to_searches_singleton (l : String) :
    locations_to_searches [l] = classifyOne l := by
  simp [locations_to_searches]

/-- A list with `isEmpty = false` has positive length. -/
theorem length_pos_of_not_isEmpty {α : Type} {l : List α}
    (h : (!l.isEmpty) = true) : 1 ≤ l.length := by
  cases l with
  | nil => simp at h
  | cons a t => simp

/-- Each location is classified either as exactly one search and no errors, or
as no search and at least one error. -/
theorem classifyOne_cases (location : String) :
    ((classifyOne location).1.length = 1 ∧ (classifyOne location).2 = []) ∨
    ((classifyOne location).1 = [] ∧ 1 ≤ (classifyOne location).2.length) := by
  unfold classifyOne
  split
  · exact Or.inl ⟨rfl, rfl⟩
  · split
    · dsimp only
      split
      · next hne => exact Or.inr ⟨rfl, length_pos_of_not_isEmpty hne⟩
      · exact Or.inl ⟨rfl, rfl⟩
    · exact Or.inr ⟨rfl, by simp⟩

/-- With `simulate_web_failure` set, one search iteration ignores the oracle
and fails with the fixed status 999. -/
theorem performOne_simulate (web : Web) (s : Search) :
    performOne web true s
      = some ([], [(s, "Webserver returned error code: 999")]) := by
  show performOne web true s
      = some ([], [(s, "Webserver returned error code: " ++ toString (999 : Nat))])
  rfl

/-- With `simulate_web_failure` set, `perform_searches` returns no successes
and one failure per search, for any oracle. -/
theorem perform_searches_simulate (web : Web) (searches : List Search) :
    perform_searches web searches true
      = some ([], searches.map
          (fun s => (s, "Webserver returned error code: 999"))) := by
  induction searches with
  | nil => rfl
  | cons a t ih => simp [perform_searches, performOne_simulate, ih]

/-- Does a parsed JSON value carry the key `k`? Only dictionaries carry keys. -/
def jHasKey (k : String) : JVal → Bool
  | .obj fs => fs.any (fun p => p.1 == k)
  | _ => false

/-- Filtering out the entries with key `k` leaves no entry with key `k`. -/
theorem any_filter_bne {fs : List (String × JVal)} {k : String} :
    ((fs.filter (fun p => p.1 != k)).any (fun p => p.1 == k)) = false := by
  rw [Bool.eq_false_iff]
  intro hc
  rcases List.any_eq_true.mp hc with ⟨p, hp, hpk⟩
  have hne := List.of_mem_filter hp
  rw [bne] at hne
  rw [hpk] at hne
  exact Bool.noConfusion hne

/-- Whatever `stripLocalNames` returns carries no `local_names` key. -/
theorem stripLocalNames_no_key {fr fr2 : JVal}
    (h : stripLocalNames fr = some fr2) :
    jHasKey "local_names" fr2 = false := by
  unfold stripLocalNames at h
  cases fr with
  | null => simp [pyContains] at h
  | bool b => simp [pyContains] at h
  | num lit => simp [pyContains] at h
  | str s =>
    cases hc : listInfix ("local_names").data s.data with
    | true => simp [pyContains, hc, pyDelKey] at h
    | false =>
      simp [pyContains, hc] at h
      rw [← h]
      rfl
  | arr xs =>
    cases hc : xs.any (fun v => match v with | .str s => s == "local_names" | _ => false) with
    | true => simp [pyContains, hc, pyDelKey] at h
    | false =>
      simp [pyContains, hc] at h
      rw [← h]
      rfl
  | obj fs =>
    cases hc : fs.any (fun p => p.1 == "local_names") with
    | true =>
      simp [pyContains, hc, pyDelKey] at h
      rw [← h]
      simp only [jHasKey]
      exact any_filter_bne
    | false =>
      simp [pyContains, hc] at h
      rw [← h]
      simpa [jHasKey] using hc

/-- Every success contributed by interpreting one response has the
`local_names` key stripped. -/
theorem classifyResponse_success_no_local_names {s : Search}
    {response : WebResponse}
    {succ : List (Search × JVal)} {fail : List (Search × String)}
    (h : classifyResponse s response = some (succ, fail)) :
    ∀ p ∈ succ, jHasKey "local_names" p.2 = false := by
  unfold classifyResponse at h
  split at h
  · split at h
    · exact Option.noConfusion h
    · split at h
      · split at h
        · exact Option.noConfusion h
        · split at h
          · split at h
            · exact Option.noConfusion h
            · split at h
              · exact Option.noConfusion h
              · rename_i fr hs
                injection h with h2
                cases h2
                intro p hp
                simp at hp
                rw [hp]
                exact stripLocalNames_no_key hs
          · injection h with h2
            cases h2
            intro p hp
            simp at hp
      · split at h
        · exact Option.noConfusion h
        · rename_i fr hs
          injection h with h2
          cases h2
          intro p hp
          simp at hp
          rw [hp]
          exact stripLocalNames_no_key hs
  · injection h with h2
    cases h2
    intro p hp
    simp at hp

/-- Every success contributed by a single search iteration has the
`local_names` key stripped. -/
theorem performOne_success_no_local_names {web : Web} {sim : Bool} {s : Search}
    {succ : List (Search × JVal)} {fail : List (Search × String)}
    (h : performOne web sim s = some (succ, fail)) :
    ∀ p ∈ succ, jHasKey "local_names" p.2 = false := by
  unfold performOne at h
  exact classifyResponse_success_no_local_names h

/-! ## Claim theorems -/

/-- C1: for every collection of raw location strings, `locations_to_searches`
produces the concatenation, over the inputs, of each input's contribution, and
every input contributes either exactly one search request and no error, or no
search request and at least one validation error — so every input is accounted
for in exactly one of the two lists. -/
theorem c1_classifier_partitions_inputs (locations : List String) :
    (locations_to_searches locations).1
        = (locations.map (fun l => (locations_to_searches [l]).1)).flatten ∧
    (locations_to_searches locations).2
        = (locations.map (fun l => (locations_to_searches [l]).2)).flatten ∧
    ∀ l ∈ locations,
      ((locations_to_searches [l]).1.length = 1 ∧ (locations_to_searches [l]).2 = []) ∨
      ((locations_to_searches [l]).1 = [] ∧ 1 ≤ (locations_to_searches [l]).2.length) := by
  refine ⟨?_, ?_, ?_⟩
  · induction locations with
    | nil => rfl
    | cons a t ih => simp [locations_to_searches, locations_to_searches_singleton, ih]
  · induction locations with
    | nil => rfl
    | cons a t ih => simp [locations_to_searches, locations_to_searches_singleton, ih]
  · intro l _
    simpa [locations_to_searches_singleton] using classifyOne_cases l

/-- Witness for C1 at the concrete input `"123"`, which contributes one
validation error and no search. -/
theorem c1_classifier_partitions_inputs_witness :
    ((locations_to_searches ["123"]).1.length = 1 ∧
      (locations_to_searches ["123"]).2 = []) ∨
    ((locations_to_searches ["123"]).1 = [] ∧
      1 ≤ (locations_to_searches ["123"]).2.length) :=
  (c1_classifier_partitions_inputs ["123"]).2.2 "123" (by simp)

/-- C4: every input string beginning with a run of five digits is classified
as a zip-code search (never a validation error), regardless of trailing
characters. -/
theorem c4_leading_five_digits_is_zip_search (location : String)
    (h : matchFiveDigits location = true) :
    locations_to_searches [location] = ([⟨SearchType.ZIP_CODE, location⟩], []) := by
  rw [locations_to_searches_singleton]
  unfold classifyOne
  simp [h]

/-- C2: when the classified (deduplicated) locations yield at least one
validation error, `main` returns outcome code 1 and its report is the optional
duplicate-count line followed by exactly the validation errors; the result does
not depend on the transport oracle or the simulate flag, so no lookup is
performed. -/
theorem c2_validation_errors_abort_run (locations : List String)
    (web web' : Web) (sim sim' : Bool)
    (h : (locations_to_searches (dedupList locations)).2 ≠ []) :
    main locations web sim =
      some (pyStrip (String.intercalate "\n"
        (dupLines locations ++ (locations_to_searches (dedupList locations)).2)), 1) ∧
    main locations web sim = main locations web' sim' := by
  have hmain : ∀ (w : Web) (s : Bool), mainLines locations w s =
      some (dupLines locations ++ (locations_to_searches (dedupList locations)).2, 1) := by
    intro w s
    unfold mainLines
    have hb : (!(locations_to_searches (dedupList locations)).2.isEmpty) = true := by
      simpa using h
    simp only [hb, if_true]
  exact ⟨by simp [main, hmain], by simp [main, hmain]⟩

/-- Witness for C2 at the concrete input `["123"]`, comparing two different
transport oracles and simulate flags. -/
theorem c2_validation_errors_abort_run_witness :
    main ["123"] (fun _ _ => WebResponse.fake) false
      = some ("Location 123 does not contain one-and-only-one comma", 1) ∧
    main ["123"] (fun _ _ => WebResponse.fake) false
      = main ["123"] (fun _ _ => WebResponse.real 200 JVal.null) true := by
  have h := c2_validation_errors_abort_run ["123"] (fun _ _ => WebResponse.fake)
    (fun _ _ => WebResponse.real 200 JVal.null) false true (by decide)
  exact ⟨h.1.trans (by rfl), h.2⟩

/-- C3: when classification produces no validation errors, `main` executes the
searches and returns outcome code 2 exactly when the list of failed searches
is non-empty and 0 otherwise; the report contains the successful-search lines
followed by the failed-search lines, so failures do not suppress successes. -/
theorem c3_lookup_outcome_codes (locations : List String) (web : Web) (sim : Bool)
    (succ : List (Search × JVal)) (fail : List (Search × String))
    (herr : (locations_to_searches (dedupList locations)).2 = [])
    (hps : perform_searches web (locations_to_searches (dedupList locations)).1 sim
            = some (succ, fail)) :
    main locations web sim =
      some (pyStrip (String.intercalate "\n"
              (dupLines locations ++ successLines succ ++ failLines fail)),
            if fail.isEmpty then 0 else 2) := by
  unfold main mainLines
  simp only [herr, hps]
  cases fail <;> simp

/-- Witness for C3 at a run with one successful and one failed zip lookup. -/
theorem c3_lookup_outcome_codes_witness :
    main ["12345", "99999"]
      (fun _ params =>
        match params with
        | (_, v) :: _ =>
          if v == "12345,US" then
            WebResponse.real 200 (JVal.obj [("name", JVal.str "Schenectady")])
          else WebResponse.real 404 JVal.null
        | [] => WebResponse.real 404 JVal.null)
      false
      = some ("1 successful search(es):\nSearch: Zip code 12345\nResult: \x7b\x27name\x27: \x27Schenectady\x27\x7d\n1 failed search(es):\nSearch: Zip code 99999\nError: Webserver returned error code: 404", 2) := by
  have h := c3_lookup_outcome_codes ["12345", "99999"]
    (fun _ params =>
      match params with
      | (_, v) :: _ =>
        if v == "12345,US" then
          WebResponse.real 200 (JVal.obj [("name", JVal.str "Schenectady")])
        else WebResponse.real 404 JVal.null
      | [] => WebResponse.real 404 JVal.null)
    false
    [(⟨SearchType.ZIP_CODE, "12345"⟩, JVal.obj [("name", JVal.str "Schenectady")])]
    [(⟨SearchType.ZIP_CODE, "99999"⟩, "Webserver returned error code: 404")]
    (by rfl) (by rfl)
  exact h.trans (by rfl)

/-- C5: deduplication has set semantics — two location lists with the same
distinct strings (in first-occurrence order) and the same number of removed
duplicates behave identically — and `main` on `["12345", "12345"]` prepends
exactly the line `Removed 1 duplicative location(s) from search` to the output
lines of `main` on `["12345"]`, proceeding as if only one `"12345"` was
given. -/
theorem c5_duplicates_removed_with_count_line
    (l1 l2 : List String) (web : Web) (sim : Bool)
    (hset : dedupList l1 = dedupList l2)
    (hdelta : l1.length - (dedupList l1).length
                = l2.length - (dedupList l2).length) :
    main l1 web sim = main l2 web sim ∧
    (∀ lines c, mainLines l1 web sim = some (lines, c) →
      lines.take (dupLines l1).length = dupLines l1) ∧
    mainLines ["12345", "12345"] web sim =
      Option.map
        (fun p => ("Removed 1 duplicative location(s) from search" :: p.1, p.2))
        (mainLines ["12345"] web sim) := by
  have hdup : dupLines l1 = dupLines l2 := by
    unfold dupLines
    rw [hdelta]
  refine ⟨?_, ?_, ?_⟩
  · unfold main mainLines
    rw [hset, hdup]
  · intro lines c hml
    unfold mainLines at hml
    simp only [] at hml
    split at hml
    · injection hml with h2
      cases h2
      exact List.take_left _ _
    · split at hml
      · exact Option.noConfusion hml
      · injection hml with h2
        cases h2
        rw [List.append_assoc]
        exact List.take_left _ _
  · have hd2 : dedupList ["12345", "12345"] = ["12345"] := rfl
    have hd1 : dedupList ["12345"] = ["12345"] := rfl
    have herr : (locations_to_searches ["12345"]).2 = [] := rfl
    have hdl2 : dupLines ["12345", "12345"]
        = ["Removed 1 duplicative location(s) from search"] := rfl
    have hdl1 : dupLines ["12345"] = ([] : List String) := rfl
    unfold mainLines
    rw [hd2]
    cases hps : perform_searches web (locations_to_searches ["12345"]).1 sim with
    | none => simp [herr, hps, hd1]
    | some res => simp [herr, hps, hd1, hdl2, hdl1]

/-- Witness for C5: two lists with the same distinct elements and one duplicate
each produce the same run, applied at concrete lists of malformed locations. -/
theorem c5_duplicates_removed_with_count_line_witness :
    main ["123", "123", "124"] (fun _ _ => WebResponse.fake) false
      = main ["123", "124", "124"] (fun _ _ => WebResponse.fake) false ∧
    (["Removed 1 duplicative location(s) from search",
      "1 failed search(es):",
      "Search: Zip code 12345\nError: Webserver returned error code: 999"].take
        (dupLines ["12345", "12345"]).length = dupLines ["12345", "12345"]) ∧
    mainLines ["12345", "12345"] (fun _ _ => WebResponse.fake) true =
      Option.map
        (fun p => ("Removed 1 duplicative location(s) from search" :: p.1, p.2))
        (mainLines ["12345"] (fun _ _ => WebResponse.fake) true) :=
  ⟨(c5_duplicates_removed_with_count_line ["123", "123", "124"] ["123", "124", "124"]
      (fun _ _ => WebResponse.fake) false (by decide) (by decide)).1,
   (c5_duplicates_removed_with_count_line ["12345", "12345"] ["12345", "12345"]
      (fun _ _ => WebResponse.fake) true rfl rfl).2.1
      ["Removed 1 duplicative location(s) from search",
       "1 failed search(es):",
       "Search: Zip code 12345\nError: Webserver returned error code: 999"] 2 (by rfl),
   (c5_duplicates_removed_with_count_line [] [] (fun _ _ => WebResponse.fake) true
      rfl rfl).2.2⟩

/-- C7: every successful search result returned by `perform_searches` (both
name/state and zip-code searches) carries no `local_names` key: the locale-name
sub-structure is stripped before the record is returned. -/
theorem c7_success_payloads_have_no_local_names
    (web : Web) (searches : List Search) (sim : Bool)
    (succ : List (Search × JVal)) (fail : List (Search × String))
    (h : perform_searches web searches sim = some (succ, fail)) :
    ∀ p ∈ succ, jHasKey "local_names" p.2 = false := by
  induction searches generalizing succ fail with
  | nil =>
    simp [perform_searches] at h
    rcases h with ⟨h1, h2⟩
    subst h1
    intro p hp
    simp at hp
  | cons a t ih =>
    rw [perform_searches] at h
    cases hp1 : performOne web sim a with
    | none => rw [hp1] at h; exact Option.noConfusion h
    | some here =>
      cases hpr : perform_searches web t sim with
      | none => rw [hp1, hpr] at h; exact Option.noConfusion h
      | some there =>
        rw [hp1, hpr] at h
        injection h with h2
        cases h2
        intro p hp
        rcases List.mem_append.mp hp with hmem | hmem
        · exact performOne_success_no_local_names hp1 p hmem
        · exact ih there.1 there.2 hpr p hmem

/-- Witness for C7: a name/state lookup whose first record carries a
`local_names` sub-structure yields a payload without it. -/
theorem c7_success_payloads_have_no_local_names_witness :
    jHasKey "local_names" (JVal.obj [("name", JVal.str "Cleveland")]) = false := by
  have h := c7_success_payloads_have_no_local_names
    (fun _ _ => WebResponse.real 200 (JVal.arr
      [JVal.obj [("local_names", JVal.obj [("en", JVal.str "Cleveland")]),
                 ("name", JVal.str "Cleveland")]]))
    [⟨SearchType.NAME_STATE, "cleveland,OH"⟩] false
    [(⟨SearchType.NAME_STATE, "cleveland,OH"⟩, JVal.obj [("name", JVal.str "Cleveland")])]
    [] (by rfl)
  exact h (⟨SearchType.NAME_STATE, "cleveland,OH"⟩,
    JVal.obj [("name", JVal.str "Cleveland")]) (by simp)

/-- C9: when `simulate_web_failure` is set, no real network call is made — the
run does not depend on the transport oracle — and every search request is
classified as a failure with the fixed synthetic error status 999; in
particular `main ["cleveland,OH"]` with simulated failure reports a single
failed search with that status and outcome code 2. -/
theorem c9_simulated_web_failure (web web' : Web) (searches : List Search) :
    perform_searches web searches true = perform_searches web' searches true ∧
    perform_searches web searches true
      = some ([], searches.map
          (fun s => (s, "Webserver returned error code: 999"))) ∧
    main ["cleveland,OH"] web true =
      some ("1 failed search(es):\nSearch: Name,State cleveland,OH\nError: Webserver returned error code: 999", 2) := by
  refine ⟨?_, perform_searches_simulate web searches, ?_⟩
  · rw [perform_searches_simulate, perform_searches_simulate]
  · have h : main ["cleveland,OH"] web true
        = main ["cleveland,OH"] (fun _ _ => WebResponse.fake) true := by
      unfold main mainLines
      simp only [perform_searches_simulate]
    rw [h]
    rfl

/-- C10: with `simulate_web_failure` set, the status check against 200 always
takes the failure branch (the fake status code is 999), the `text` attribute —
which `FakeWebResponse` does not define — is never read, and the call is total:
it returns an empty success list and one failure per request without raising. -/
theorem c10_simulated_run_is_total (web : Web) (searches : List Search) :
    (WebResponse.fake.status_code == 200) = false ∧
    WebResponse.fake.parsedText = none ∧
    perform_searches web searches true
      = some ([], searches.map
          (fun s => (s, "Webserver returned error code: 999"))) :=
  ⟨rfl, rfl, perform_searches_simulate web searches⟩

/-- C6: a response with a status other than 200 is classified as a failure
whose message embeds the status code; for a name/state search with a 200
response, an empty response list is a failure (`no matching responses`) and a
non-empty list yields the first element — with its locale-name sub-structure
handled by `stripLocalNames`, and unchanged when it carries no `local_names`
key — as the successful payload. -/
theorem c6_response_interpretation (search : Search) (web : Web) :
    ((web (fullUrl search) (searchParams search)).status_code ≠ 200 →
      perform_searches web [search] false =
        some ([], [(search, "Webserver returned error code: "
            ++ toString (web (fullUrl search) (searchParams search)).status_code)])) ∧
    (search.search_type = SearchType.NAME_STATE →
      web (fullUrl search) (searchParams search) = WebResponse.real 200 (JVal.arr []) →
      perform_searches web [search] false =
        some ([], [(search, "Webserver response had no matching responses")])) ∧
    (∀ x xs, search.search_type = SearchType.NAME_STATE →
      web (fullUrl search) (searchParams search)
          = WebResponse.real 200 (JVal.arr (x :: xs)) →
      perform_searches web [search] false =
        Option.map (fun fr => ([(search, fr)], ([] : List (Search × String))))
          (stripLocalNames x) ∧
      (pyContains "local_names" x = some false →
        perform_searches web [search] false = some ([(search, x)], []))) := by
  refine ⟨?_, ?_, ?_⟩
  · intro hne
    have hb : ((web (fullUrl search) (searchParams search)).status_code == 200) = false := by
      simpa using hne
    simp [perform_searches, performOne, classifyResponse, hb]
  · intro hst hw
    simp [perform_searches, performOne, classifyResponse, hw, hst,
      WebResponse.status_code, WebResponse.parsedText, pyLen]
  · intro x xs hst hw
    have h1 : perform_searches web [search] false =
        Option.map (fun fr => ([(search, fr)], ([] : List (Search × String))))
          (stripLocalNames x) := by
      cases hsx : stripLocalNames x with
      | none =>
        simp [perform_searches, performOne, classifyResponse, hw, hst,
          WebResponse.status_code, WebResponse.parsedText, pyLen, pyIndexZero, hsx]
      | some fr =>
        simp [perform_searches, performOne, classifyResponse, hw, hst,
          WebResponse.status_code, WebResponse.parsedText, pyLen, pyIndexZero, hsx]
    refine ⟨h1, ?_⟩
    intro hc
    rw [h1]
    simp [stripLocalNames, hc]

/-- Witness for C6: concrete oracles exercising the non-200 branch, the
empty-list branch, the non-empty-list branch with a `local_names` key, and the
non-empty-list branch without one. -/
theorem c6_response_interpretation_witness :
    (perform_searches (fun _ _ => WebResponse.real 404 JVal.null)
        [⟨SearchType.NAME_STATE, "cleveland,OH"⟩] false
      = some ([], [(⟨SearchType.NAME_STATE, "cleveland,OH"⟩,
          "Webserver returned error code: 404")])) ∧
    (perform_searches (fun _ _ => WebResponse.real 200 (JVal.arr []))
        [⟨SearchType.NAME_STATE, "cleveland,OH"⟩] false
      = some ([], [(⟨SearchType.NAME_STATE, "cleveland,OH"⟩,
          "Webserver response had no matching responses")])) ∧
    (perform_searches
        (fun _ _ => WebResponse.real 200 (JVal.arr
          [JVal.obj [("name", JVal.str "Cleveland"), ("local_names", JVal.obj [])]]))
        [⟨SearchType.NAME_STATE, "cleveland,OH"⟩] false
      = some ([(⟨SearchType.NAME_STATE, "cleveland,OH"⟩,
          JVal.obj [("name", JVal.str "Cleveland")])], [])) ∧
    (perform_searches
        (fun _ _ => WebResponse.real 200 (JVal.arr [JVal.obj [("name", JVal.str "Akron")]]))
        [⟨SearchType.NAME_STATE, "akron,OH"⟩] false
      = some ([(⟨SearchType.NAME_STATE, "akron,OH"⟩,
          JVal.obj [("name", JVal.str "Akron")])], [])) := by
  refine ⟨?_, ?_, ?_, ?_⟩
  · exact ((c6_response_interpretation ⟨SearchType.NAME_STATE, "cleveland,OH"⟩
      (fun _ _ => WebResponse.real 404 JVal.null)).1 (by decide)).trans (by rfl)
  · exact (c6_response_interpretation ⟨SearchType.NAME_STATE, "cleveland,OH"⟩
      (fun _ _ => WebResponse.real 200 (JVal.arr []))).2.1 rfl rfl
  · exact (((c6_response_interpretation ⟨SearchType.NAME_STATE, "cleveland,OH"⟩
      (fun _ _ => WebResponse.real 200 (JVal.arr
        [JVal.obj [("name", JVal.str "Cleveland"), ("local_names", JVal.obj [])]]))).2.2
      (JVal.obj [("name", JVal.str "Cleveland"), ("local_names", JVal.obj [])]) []
      rfl rfl).1).trans (by rfl)
  · exact ((c6_response_interpretation ⟨SearchType.NAME_STATE, "akron,OH"⟩
      (fun _ _ => WebResponse.real 200 (JVal.arr [JVal.obj [("name", JVal.str "Akron")]]))).2.2
      (JVal.obj [("name", JVal.str "Akron")]) [] rfl rfl).2 (by rfl)

/-- C8: every input string classified as a name/state search yields the value
`trimmedCity ++ "," ++ upperState` — the city token stripped of surrounding
whitespace with its case preserved, a comma with no spaces, and the state token
stripped and uppercased — and the search's description renders as the search
type followed by a space and that value. -/
theorem c8_name_state_value_normalization (location t0 t1 : String)
    (hm : matchFiveDigits location = false)
    (hsplit : pySplitComma location = [t0, t1])
    (hcity : pyStrip t0 ≠ "")
    (hstate : STATES.contains (pyUpper (pyStrip t1)) = true) :
    locations_to_searches [location]
      = ([⟨SearchType.NAME_STATE, pyStrip t0 ++ "," ++ pyUpper (pyStrip t1)⟩], []) ∧
    Search.reprStr ⟨SearchType.NAME_STATE, pyStrip t0 ++ "," ++ pyUpper (pyStrip t1)⟩
      = SearchType.NAME_STATE ++ " " ++ (pyStrip t0 ++ "," ++ pyUpper (pyStrip t1)) := by
  constructor
  · rw [locations_to_searches_singleton]
    unfold classifyOne
    rw [hm]
    have hb : (pyStrip t0 == "") = false := by simpa using hcity
    simp [hsplit, localErrors, hb, hstate]
    simpa using hstate
  · rfl

/-- Witness for C8 at the concrete input `"cleveland, oh"`, whose search
description renders as `Name,State cleveland,OH`. -/
theorem c8_name_state_value_normalization_witness :
    locations_to_searches ["cleveland, oh"]
      = ([⟨SearchType.NAME_STATE, "cleveland,OH"⟩], []) ∧
    Search.reprStr ⟨SearchType.NAME_STATE, "cleveland,OH"⟩
      = "Name,State cleveland,OH" := by
  have h := c8_name_state_value_normalization "cleveland, oh" "cleveland" " oh"
    (by decide) (by rfl) (by decide) (by decide)
  exact ⟨h.1.trans (by rfl), (h.2.trans (by rfl) : _)⟩

/-- Witness for C4 at the concrete input `"12345abc"`. -/
theorem c4_leading_five_digits_is_zip_search_witness :
    matchFiveDigits "12345abc" = true ∧
    locations_to_searches ["12345abc"] = ([⟨SearchType.ZIP_CODE, "12345abc"⟩], []) :=
  ⟨by decide, c4_leading_five_digits_is_zip_search "12345abc" (by decide)⟩

end GeolocUtil
